import Mathlib

/-!
Shallow embedding of the bookstore sale-transaction engine (`bm.py`).

The SQLite store is modelled as a record of three tables (lists of rows)
plus the AUTOINCREMENT sequence for `sale.sid` (`nextSid`): SQLite's
AUTOINCREMENT guarantees a fresh rowid strictly larger than any ever
issued, which is exactly a counter that only grows.  The interactive
prompting code in `update_sale` / `delete_sale` is I/O glue; the engine
core embedded here is the validation, the SQL the functions execute and
the values they compute.
-/

namespace Bookstore

/-- A row of the `member` table: `mid TEXT PRIMARY KEY, mname, mphone, memail`. -/
structure Member where
  mid : String
  mname : String
  mphone : String
  memail : Option String
  deriving DecidableEq

/-- A row of the `book` table: `bid TEXT PRIMARY KEY, btitle, bprice, bstock`. -/
structure Book where
  bid : String
  btitle : String
  bprice : Int
  bstock : Int
  deriving DecidableEq

/-- A row of the `sale` table:
`sid INTEGER PRIMARY KEY AUTOINCREMENT, sdate, mid, bid, sqty, sdiscount, stotal`. -/
structure Sale where
  sid : Nat
  sdate : String
  mid : String
  bid : String
  sqty : Int
  sdiscount : Int
  stotal : Int
  deriving DecidableEq

/-- The persistent store: the three tables plus the AUTOINCREMENT sequence
for `sale.sid`.  `tablesExist` records whether `CREATE TABLE IF NOT EXISTS`
has run. -/
structure DB where
  tablesExist : Bool
  member : List Member
  book : List Book
  sale : List Sale
  nextSid : Nat
  deriving DecidableEq

/-- A store with the schema absent and no rows; `nextSid = 1` because SQLite
rowids start at 1. -/
def emptyDB : DB :=
  { tablesExist := false, member := [], book := [], sale := [], nextSid := 1 }

/-- The three seed members inserted by `initialize_db` (bm.py lines 69-71). -/
def seedMembers : List Member :=
  [ { mid := "M001", mname := "Alice", mphone := "0912-345678", memail := some "alice@example.com" },
    { mid := "M002", mname := "Bob", mphone := "0923-456789", memail := some "bob@example.com" },
    { mid := "M003", mname := "Cathy", mphone := "0934-567890", memail := some "cathy@example.com" } ]

/-- The three seed books inserted by `initialize_db` (bm.py lines 73-75). -/
def seedBooks : List Book :=
  [ { bid := "B001", btitle := "Python Programming", bprice := 600, bstock := 50 },
    { bid := "B002", btitle := "Data Science Basics", bprice := 800, bstock := 30 },
    { bid := "B003", btitle := "Machine Learning Guide", bprice := 1200, bstock := 20 } ]

/-- The four seed sales inserted by `initialize_db` (bm.py lines 77-80); their
`sid`s are assigned by AUTOINCREMENT starting from the current sequence value. -/
def seedSales (startSid : Nat) : List Sale :=
  [ { sid := startSid, sdate := "2024-01-15", mid := "M001", bid := "B001",
      sqty := 2, sdiscount := 100, stotal := 1100 },
    { sid := startSid + 1, sdate := "2024-01-16", mid := "M002", bid := "B002",
      sqty := 1, sdiscount := 50, stotal := 750 },
    { sid := startSid + 2, sdate := "2024-01-17", mid := "M001", bid := "B003",
      sqty := 3, sdiscount := 200, stotal := 3400 },
    { sid := startSid + 3, sdate := "2024-01-18", mid := "M003", bid := "B001",
      sqty := 1, sdiscount := 0, stotal := 600 } ]

/-- `initialize_db` (bm.py lines 19-83): `CREATE TABLE IF NOT EXISTS` for the
three tables, then `SELECT COUNT(*) FROM member`; only when that count is 0
are the seed members, books and sales inserted. -/
def initialize_db (db : DB) : DB :=
  let db1 : DB := { db with tablesExist := true }
  if db1.member.length = 0 then
    { db1 with
        member := db1.member ++ seedMembers,
        book := db1.book ++ seedBooks,
        sale := db1.sale ++ seedSales db1.nextSid,
        nextSid := db1.nextSid + 4 }
  else
    db1

/-- The result messages `add_sale` can return (bm.py lines 105-143); error
constructors carry the data interpolated into the Python f-strings. -/
inductive SaleMsg where
  | dateFormatErr : SaleMsg
  | qtyDiscountErr : SaleMsg
  | memberNotFound : String → SaleMsg
  | bookNotFound : String → SaleMsg
  | insufficientStock : Int → SaleMsg
  | added : Int → SaleMsg
  deriving DecidableEq

/-- The message strings of bm.py rendered from a `SaleMsg`. -/
def renderMsg : SaleMsg → String
  | SaleMsg.dateFormatErr => "❌ 日期格式錯誤，應為 YYYY-MM-DD。"
  | SaleMsg.qtyDiscountErr => "❌ 數量必須 > 0，折扣金額不得為負數。"
  | SaleMsg.memberNotFound mid => "❌ 會員編號 " ++ mid ++ " 不存在。"
  | SaleMsg.bookNotFound bid => "❌ 書籍編號 " ++ bid ++ " 不存在。"
  | SaleMsg.insufficientStock bstock => "❌ 庫存不足，目前庫存為 " ++ toString bstock ++ " 本。"
  | SaleMsg.added stotal => "✅ 銷售記錄已新增！(銷售總額: " ++ toString stotal ++ ")"

/-- `add_sale` (bm.py lines 85-143): validate date shape, quantity/discount
bounds, member existence, book existence and stock sufficiency in that order,
returning on the first failure with the store untouched; on success insert the
sale row (AUTOINCREMENT id) and decrement the book's stock. -/
def add_sale (db : DB) (sdate mid bid : String) (sqty sdiscount : Int) :
    DB × Bool × SaleMsg :=
  if sdate.length ≠ 10 ∨ sdate.toList.count '-' ≠ 2 then
    (db, false, SaleMsg.dateFormatErr)
  else if sqty ≤ 0 ∨ sdiscount < 0 then
    (db, false, SaleMsg.qtyDiscountErr)
  else
    match db.member.find? (fun m => m.mid == mid) with
    | none => (db, false, SaleMsg.memberNotFound mid)
    | some _ =>
      match db.book.find? (fun b => b.bid == bid) with
      | none => (db, false, SaleMsg.bookNotFound bid)
      | some book =>
        if sqty > book.bstock then
          (db, false, SaleMsg.insufficientStock book.bstock)
        else
          let stotal0 : Int := book.bprice * sqty - sdiscount
          let stotal : Int := if stotal0 < 0 then 0 else stotal0
          ({ db with
              sale := db.sale ++
                [{ sid := db.nextSid, sdate := sdate, mid := mid, bid := bid,
                   sqty := sqty, sdiscount := sdiscount, stotal := stotal }],
              book := db.book.map (fun b =>
                if b.bid == bid then { b with bstock := b.bstock - sqty } else b),
              nextSid := db.nextSid + 1 },
           true, SaleMsg.added stotal)

/-- Engine core of `update_sale` (bm.py lines 238-266), after the interactive
prompting: reject a negative discount, join the sale to its book
(`SELECT s.sqty, b.bprice FROM sale s JOIN book b ON s.bid = b.bid WHERE s.sid = ?`),
recompute `stotal = max(bprice * sqty - new_discount, 0)` and
`UPDATE sale SET sdiscount = ?, stotal = ? WHERE sid = ?`. -/
def update_sale (db : DB) (sid : Nat) (new_discount : Int) : DB × Bool :=
  if new_discount < 0 then
    (db, false)
  else
    match db.sale.find? (fun s => s.sid == sid) with
    | none => (db, false)
    | some s =>
      match db.book.find? (fun b => b.bid == s.bid) with
      | none => (db, false)
      | some b =>
        let stotal : Int := max (b.bprice * s.sqty - new_discount) 0
        ({ db with
            sale := db.sale.map (fun t =>
              if t.sid == sid then
                { t with sdiscount := new_discount, stotal := stotal }
              else t) },
         true)

/-- Engine core of `delete_sale` (bm.py lines 311-316), after the interactive
prompting: `DELETE FROM sale WHERE sid = ?`.  Book stock is not touched. -/
def delete_sale (db : DB) (sid : Nat) : DB :=
  { db with sale := db.sale.filter (fun s => s.sid != sid) }

/-- The sale-engine operations reachable from the menu (options 1, 3, 4). -/
inductive Op where
  | createSale (sdate mid bid : String) (sqty sdiscount : Int) : Op
  | updateDiscount (sid : Nat) (new_discount : Int) : Op
  | deleteSale (sid : Nat) : Op

/-- Apply one engine operation to the store. -/
def applyOp (db : DB) : Op → DB
  | Op.createSale sdate mid bid sqty sdiscount =>
      (add_sale db sdate mid bid sqty sdiscount).1
  | Op.updateDiscount sid d => (update_sale db sid d).1
  | Op.deleteSale sid => delete_sale db sid

/-- Run a sequence of engine operations. -/
def runOps (db : DB) : List Op → DB
  | [] => db
  | op :: ops => runOps (applyOp db op) ops

/-- The sale id issued by one operation: a successful `add_sale` issues the
current AUTOINCREMENT value, every other operation issues nothing. -/
def newSaleIds (db : DB) : Op → List Nat
  | Op.createSale sdate mid bid sqty sdiscount =>
      if (add_sale db sdate mid bid sqty sdiscount).2.1 then [db.nextSid] else []
  | Op.updateDiscount _ _ => []
  | Op.deleteSale _ => []

/-- All sale ids issued along a run, in order of issuance. -/
def issuedIds (db : DB) : List Op → List Nat
  | [] => []
  | op :: ops => newSaleIds db op ++ issuedIds (applyOp db op) ops

/-- The date-shape check of `add_sale` (bm.py line 104), stated positively. -/
abbrev dateShapeOk (sdate : String) : Prop :=
  sdate.length = 10 ∧ sdate.toList.count '-' = 2

/-- The quantity/discount bounds check of `add_sale` (bm.py line 107), stated
positively. -/
abbrev qtyDiscountOk (sqty sdiscount : Int) : Prop :=
  0 < sqty ∧ 0 ≤ sdiscount

/-- A sale row's stored total agrees with the engine's own pricing formula
`max(price * qty - discount, 0)` against the given book table. -/
def saleTotalConsistent (books : List Book) (s : Sale) : Bool :=
  match books.find? (fun b => b.bid == s.bid) with
  | some b => s.stotal == max (b.bprice * s.sqty - s.sdiscount) 0
  | none => false

/-- A fixed store used to witness theorems about a non-empty member table. -/
def demoDB : DB :=
  { tablesExist := false,
    member := [{ mid := "M009", mname := "Zoe", mphone := "0911-000000", memail := none }],
    book := [], sale := [], nextSid := 1 }

/-- The clamping `if stotal < 0 then 0 else stotal` of bm.py lines 126-127 is
exactly `max stotal 0`. -/
theorem ite_lt_zero_eq_max (x : Int) : (if x < 0 then 0 else x) = max x 0 := by
  rcases le_or_lt 0 x with h | h
  · rw [if_neg (not_lt.mpr h), max_eq_left h]
  · rw [if_pos h, max_eq_right (le_of_lt h)]

/-- `find?` commutes with mapping a function that does not change whether the
predicate holds. -/
theorem find?_map_of_pred_preserved {α : Type} (p : α → Bool) (f : α → α)
    (hf : ∀ a, p (f a) = p a) :
    ∀ l : List α, (l.map f).find? p = (l.find? p).map f := by
  intro l
  induction l with
  | nil => rfl
  | cons a l ih =>
    by_cases h : p a = true
    · rw [List.map_cons, List.find?_cons_of_pos _ ((hf a).trans h),
        List.find?_cons_of_pos _ h]
      rfl
    · rw [List.map_cons, List.find?_cons_of_neg _ (by rw [hf a]; exact h),
        List.find?_cons_of_neg _ h, ih]

/-- Filtering away the rows whose key equals the key of a present row removes
exactly one row, provided the keys are pairwise distinct. -/
theorem length_filter_key_ne {α β : Type} [DecidableEq β] (f : α → β)
    (l : List α) (a : α) (hnd : (l.map f).Nodup) (ha : a ∈ l) :
    (l.filter (fun x => f x ≠ f a)).length + 1 = l.length := by
  induction l with
  | nil => cases ha
  | cons b l ih =>
    rw [List.map_cons, List.nodup_cons] at hnd
    rcases List.mem_cons.mp ha with rfl | ha
    · have hkeep : l.filter (fun x => decide (f x ≠ f a)) = l := by
        refine List.filter_eq_self.mpr (fun x hx => ?_)
        simp only [decide_eq_true_eq]
        intro hfx
        exact hnd.1 (hfx ▸ List.mem_map_of_mem f hx)
      simp only [List.filter_cons, decide_eq_true_eq, ne_eq, not_true_eq_false,
        if_false, hkeep, List.length_cons]
    · have hba : f b ≠ f a := fun h => hnd.1 (h ▸ List.mem_map_of_mem f ha)
      simp only [List.filter_cons, decide_eq_true_eq, ne_eq, hba,
        not_false_eq_true, if_true, List.length_cons]
      rw [← ih hnd.2 ha]

/-- `add_sale` on a bad date shape returns the date error with the store
untouched (bm.py lines 104-105). -/
theorem add_sale_date_fail (db : DB) (sdate mid bid : String) (sqty sdiscount : Int)
    (h : ¬ dateShapeOk sdate) :
    add_sale db sdate mid bid sqty sdiscount = (db, false, SaleMsg.dateFormatErr) := by
  have h1 : sdate.length ≠ 10 ∨ sdate.toList.count '-' ≠ 2 := by
    by_contra hc
    push_neg at hc
    exact h ⟨hc.1, hc.2⟩
  unfold add_sale
  rw [if_pos h1]

/-- `add_sale` on a non-positive quantity or negative discount (with a good
date) returns the bounds error with the store untouched (bm.py lines 107-108). -/
theorem add_sale_qty_fail (db : DB) (sdate mid bid : String) (sqty sdiscount : Int)
    (hdate : dateShapeOk sdate) (h : ¬ qtyDiscountOk sqty sdiscount) :
    add_sale db sdate mid bid sqty sdiscount = (db, false, SaleMsg.qtyDiscountErr) := by
  have h1 : ¬ (sdate.length ≠ 10 ∨ sdate.toList.count '-' ≠ 2) := by
    push_neg
    exact hdate
  have h2 : sqty ≤ 0 ∨ sdiscount < 0 := by
    by_contra hc
    push_neg at hc
    exact h ⟨hc.1, hc.2⟩
  unfold add_sale
  rw [if_neg h1, if_pos h2]

/-- `add_sale` on an unknown member (earlier checks passing) returns the
member-not-found error with the store untouched (bm.py lines 110-112). -/
theorem add_sale_member_fail (db : DB) (sdate mid bid : String) (sqty sdiscount : Int)
    (hdate : dateShapeOk sdate) (hqty : qtyDiscountOk sqty sdiscount)
    (hmem : db.member.find? (fun m => m.mid == mid) = none) :
    add_sale db sdate mid bid sqty sdiscount = (db, false, SaleMsg.memberNotFound mid) := by
  have h1 : ¬ (sdate.length ≠ 10 ∨ sdate.toList.count '-' ≠ 2) := by
    push_neg
    exact hdate
  have h2 : ¬ (sqty ≤ 0 ∨ sdiscount < 0) := by
    push_neg
    exact hqty
  simp only [add_sale, if_neg h1, if_neg h2, hmem]

/-- `add_sale` on an unknown book (earlier checks passing) returns the
book-not-found error with the store untouched (bm.py lines 114-117). -/
theorem add_sale_book_fail (db : DB) (sdate mid bid : String) (sqty sdiscount : Int)
    (hdate : dateShapeOk sdate) (hqty : qtyDiscountOk sqty sdiscount)
    (hmem : (db.member.find? (fun m => m.mid == mid)).isSome)
    (hbook : db.book.find? (fun b => b.bid == bid) = none) :
    add_sale db sdate mid bid sqty sdiscount = (db, false, SaleMsg.bookNotFound bid) := by
  have h1 : ¬ (sdate.length ≠ 10 ∨ sdate.toList.count '-' ≠ 2) := by
    push_neg
    exact hdate
  have h2 : ¬ (sqty ≤ 0 ∨ sdiscount < 0) := by
    push_neg
    exact hqty
  obtain ⟨m, hm⟩ := Option.isSome_iff_exists.mp hmem
  simp only [add_sale, if_neg h1, if_neg h2, hm, hbook]

/-- `add_sale` with the requested quantity above the found book's stock
(earlier checks passing) returns the insufficient-stock error carrying the
current stock, with the store untouched (bm.py lines 122-123). -/
theorem add_sale_stock_fail (db : DB) (sdate mid bid : String) (sqty sdiscount : Int)
    (bk : Book)
    (hdate : dateShapeOk sdate) (hqty : qtyDiscountOk sqty sdiscount)
    (hmem : (db.member.find? (fun m => m.mid == mid)).isSome)
    (hbook : db.book.find? (fun b => b.bid == bid) = some bk)
    (hstock : bk.bstock < sqty) :
    add_sale db sdate mid bid sqty sdiscount =
      (db, false, SaleMsg.insufficientStock bk.bstock) := by
  have h1 : ¬ (sdate.length ≠ 10 ∨ sdate.toList.count '-' ≠ 2) := by
    push_neg
    exact hdate
  have h2 : ¬ (sqty ≤ 0 ∨ sdiscount < 0) := by
    push_neg
    exact hqty
  obtain ⟨m, hm⟩ := Option.isSome_iff_exists.mp hmem
  simp only [add_sale, if_neg h1, if_neg h2, hm, hbook, if_pos hstock]

/-- `add_sale` with every check passing performs exactly the insert of the new
row (id = AUTOINCREMENT value, total clamped at 0) and the stock decrement
(bm.py lines 125-141). -/
theorem add_sale_success (db : DB) (sdate mid bid : String) (sqty sdiscount : Int)
    (bk : Book)
    (hdate : dateShapeOk sdate) (hqty : qtyDiscountOk sqty sdiscount)
    (hmem : (db.member.find? (fun m => m.mid == mid)).isSome)
    (hbook : db.book.find? (fun b => b.bid == bid) = some bk)
    (hstock : sqty ≤ bk.bstock) :
    add_sale db sdate mid bid sqty sdiscount =
      ({ db with
          sale := db.sale ++
            [{ sid := db.nextSid, sdate := sdate, mid := mid, bid := bid,
               sqty := sqty, sdiscount := sdiscount,
               stotal := max (bk.bprice * sqty - sdiscount) 0 }],
          book := db.book.map (fun b =>
            if b.bid == bid then { b with bstock := b.bstock - sqty } else b),
          nextSid := db.nextSid + 1 },
       true, SaleMsg.added (max (bk.bprice * sqty - sdiscount) 0)) := by
  have h1 : ¬ (sdate.length ≠ 10 ∨ sdate.toList.count '-' ≠ 2) := by
    push_neg
    exact hdate
  have h2 : ¬ (sqty ≤ 0 ∨ sdiscount < 0) := by
    push_neg
    exact hqty
  obtain ⟨m, hm⟩ := Option.isSome_iff_exists.mp hmem
  simp only [add_sale, if_neg h1, if_neg h2, hm, hbook, if_neg (not_lt.mpr hstock),
    ite_lt_zero_eq_max]

/-- Whenever `add_sale` reports failure, the store is unchanged. -/
theorem add_sale_fail_frame (db : DB) (sdate mid bid : String) (sqty sdiscount : Int) :
    (add_sale db sdate mid bid sqty sdiscount).2.1 = false →
    (add_sale db sdate mid bid sqty sdiscount).1 = db := by
  unfold add_sale
  repeat' split
  all_goals simp

/-- The stock-decrement map of `add_sale` does not change which book a `find?`
by id locates. -/
theorem book_update_pred_preserved (bid : String) (sqty : Int) (b : Book) :
    ((if b.bid == bid then { b with bstock := b.bstock - sqty } else b).bid == bid) =
      (b.bid == bid) := by
  by_cases h : (b.bid == bid) = true
  · rw [if_pos h]
  · rw [if_neg h]

/-- C1: every `CreateSale` call passing all validation succeeds, appends one
sale row whose total is `max(price * quantity - discount, 0)` and whose id is
the AUTOINCREMENT value, and afterwards the referenced book's stock equals its
stock before minus the quantity. -/
theorem createSale_valid_postcondition (db : DB) (sdate mid bid : String)
    (sqty sdiscount : Int) (bk : Book)
    (hdate : dateShapeOk sdate) (hqty : qtyDiscountOk sqty sdiscount)
    (hmem : (db.member.find? (fun m => m.mid == mid)).isSome)
    (hbook : db.book.find? (fun b => b.bid == bid) = some bk)
    (hstock : sqty ≤ bk.bstock) :
    (add_sale db sdate mid bid sqty sdiscount).2.1 = true ∧
    (add_sale db sdate mid bid sqty sdiscount).1.sale =
      db.sale ++
        [{ sid := db.nextSid, sdate := sdate, mid := mid, bid := bid,
           sqty := sqty, sdiscount := sdiscount,
           stotal := max (bk.bprice * sqty - sdiscount) 0 }] ∧
    (add_sale db sdate mid bid sqty sdiscount).1.book.find? (fun b => b.bid == bid) =
      some { bk with bstock := bk.bstock - sqty } := by
  rw [add_sale_success db sdate mid bid sqty sdiscount bk hdate hqty hmem hbook hstock]
  refine ⟨rfl, rfl, ?_⟩
  have hmap := find?_map_of_pred_preserved (fun b : Book => b.bid == bid)
    (fun b => if b.bid == bid then { b with bstock := b.bstock - sqty } else b)
    (book_update_pred_preserved bid sqty) db.book
  simp only [hmap, hbook, Option.map_some', if_pos (List.find?_some hbook)]

/-- C1 witness: the spec's example on the seeded store: selling 2 copies of
B001 (price 600, stock 50) with discount 100 succeeds, records total
`max(600 * 2 - 100, 0) = 1100` and leaves B001 with stock 48. -/
theorem createSale_valid_postcondition_witness :
    (add_sale (initialize_db emptyDB) "2024-02-01" "M001" "B001" 2 100).2.1 = true ∧
    (add_sale (initialize_db emptyDB) "2024-02-01" "M001" "B001" 2 100).1.sale =
      (initialize_db emptyDB).sale ++
        [{ sid := (initialize_db emptyDB).nextSid, sdate := "2024-02-01", mid := "M001",
           bid := "B001", sqty := 2, sdiscount := 100,
           stotal := max (600 * 2 - 100) 0 }] ∧
    (add_sale (initialize_db emptyDB) "2024-02-01" "M001" "B001" 2 100).1.book.find?
        (fun b => b.bid == "B001") =
      some { bid := "B001", btitle := "Python Programming", bprice := 600, bstock := 50 - 2 } :=
  createSale_valid_postcondition (initialize_db emptyDB) "2024-02-01" "M001" "B001" 2 100
    { bid := "B001", btitle := "Python Programming", bprice := 600, bstock := 50 }
    (by decide) (by decide) (by decide) (by decide) (by decide)

/-- C2: the `CreateSale` validators run in the fixed order date shape,
quantity/discount bounds, member existence, book existence, stock sufficiency;
the first failing check's error is the result, and on any validation failure
no table is modified. -/
theorem createSale_validation_order_and_frame (db : DB) (sdate mid bid : String)
    (sqty sdiscount : Int) :
    (¬ dateShapeOk sdate →
       add_sale db sdate mid bid sqty sdiscount = (db, false, SaleMsg.dateFormatErr)) ∧
    (dateShapeOk sdate → ¬ qtyDiscountOk sqty sdiscount →
       add_sale db sdate mid bid sqty sdiscount = (db, false, SaleMsg.qtyDiscountErr)) ∧
    (dateShapeOk sdate → qtyDiscountOk sqty sdiscount →
       db.member.find? (fun m => m.mid == mid) = none →
       add_sale db sdate mid bid sqty sdiscount = (db, false, SaleMsg.memberNotFound mid)) ∧
    (dateShapeOk sdate → qtyDiscountOk sqty sdiscount →
       (db.member.find? (fun m => m.mid == mid)).isSome →
       db.book.find? (fun b => b.bid == bid) = none →
       add_sale db sdate mid bid sqty sdiscount = (db, false, SaleMsg.bookNotFound bid)) ∧
    (∀ bk : Book, dateShapeOk sdate → qtyDiscountOk sqty sdiscount →
       (db.member.find? (fun m => m.mid == mid)).isSome →
       db.book.find? (fun b => b.bid == bid) = some bk → bk.bstock < sqty →
       add_sale db sdate mid bid sqty sdiscount =
         (db, false, SaleMsg.insufficientStock bk.bstock)) ∧
    ((add_sale db sdate mid bid sqty sdiscount).2.1 = false →
       (add_sale db sdate mid bid sqty sdiscount).1 = db) :=
  ⟨fun h => add_sale_date_fail db sdate mid bid sqty sdiscount h,
   fun hd h => add_sale_qty_fail db sdate mid bid sqty sdiscount hd h,
   fun hd hq h => add_sale_member_fail db sdate mid bid sqty sdiscount hd hq h,
   fun hd hq hm h => add_sale_book_fail db sdate mid bid sqty sdiscount hd hq hm h,
   fun bk hd hq hm hb h => add_sale_stock_fail db sdate mid bid sqty sdiscount bk hd hq hm hb h,
   add_sale_fail_frame db sdate mid bid sqty sdiscount⟩

/-- C2 witness: on the seeded store, each validator failure yields its own
error with the store unchanged: bad date, bad quantity, unknown member,
unknown book, and insufficient stock, in that order of checking. -/
theorem createSale_validation_order_and_frame_witness :
    add_sale (initialize_db emptyDB) "2024/02/01" "M001" "B001" 1 0 =
      (initialize_db emptyDB, false, SaleMsg.dateFormatErr) ∧
    add_sale (initialize_db emptyDB) "2024-02-01" "M001" "B001" 0 0 =
      (initialize_db emptyDB, false, SaleMsg.qtyDiscountErr) ∧
    add_sale (initialize_db emptyDB) "2024-02-01" "M999" "B001" 1 0 =
      (initialize_db emptyDB, false, SaleMsg.memberNotFound "M999") ∧
    add_sale (initialize_db emptyDB) "2024-02-01" "M001" "B999" 1 0 =
      (initialize_db emptyDB, false, SaleMsg.bookNotFound "B999") ∧
    add_sale (initialize_db emptyDB) "2024-02-01" "M001" "B003" 999 0 =
      (initialize_db emptyDB, false, SaleMsg.insufficientStock 20) :=
  ⟨(createSale_validation_order_and_frame (initialize_db emptyDB) "2024/02/01" "M001" "B001" 1 0).1
     (by decide),
   (createSale_validation_order_and_frame (initialize_db emptyDB) "2024-02-01" "M001" "B001" 0 0).2.1
     (by decide) (by decide),
   (createSale_validation_order_and_frame (initialize_db emptyDB) "2024-02-01" "M999" "B001" 1 0).2.2.1
     (by decide) (by decide) (by decide),
   (createSale_validation_order_and_frame (initialize_db emptyDB) "2024-02-01" "M001" "B999" 1 0).2.2.2.1
     (by decide) (by decide) (by decide) (by decide),
   (createSale_validation_order_and_frame (initialize_db emptyDB) "2024-02-01" "M001" "B003" 999 0).2.2.2.2.1
     { bid := "B003", btitle := "Machine Learning Guide", bprice := 1200, bstock := 20 }
     (by decide) (by decide) (by decide) (by decide) (by decide)⟩

/-- C3: a `CreateSale` whose quantity exceeds the found book's stock (all
earlier checks passing) fails with the insufficient-stock error, that error's
rendered message contains the current stock count, and the store - book stocks
and sale rows alike - is unchanged. -/
theorem createSale_insufficient_stock_error (db : DB) (sdate mid bid : String)
    (sqty sdiscount : Int) (bk : Book)
    (hdate : dateShapeOk sdate) (hqty : qtyDiscountOk sqty sdiscount)
    (hmem : (db.member.find? (fun m => m.mid == mid)).isSome)
    (hbook : db.book.find? (fun b => b.bid == bid) = some bk)
    (hstock : bk.bstock < sqty) :
    add_sale db sdate mid bid sqty sdiscount =
      (db, false, SaleMsg.insufficientStock bk.bstock) ∧
    (toString bk.bstock).toList <:+:
      (renderMsg (SaleMsg.insufficientStock bk.bstock)).toList := by
  refine ⟨add_sale_stock_fail db sdate mid bid sqty sdiscount bk hdate hqty hmem hbook hstock, ?_⟩
  refine ⟨("❌ 庫存不足，目前庫存為 ").toList, (" 本。").toList, ?_⟩
  simp only [renderMsg, String.toList, String.data_append]

/-- C3 witness: the spec's example on the seeded store: requesting 999 copies
of B003 (stock 20) fails with the stock-20 error, whose message contains "20",
and the store is unchanged. -/
theorem createSale_insufficient_stock_error_witness :
    add_sale (initialize_db emptyDB) "2024-02-01" "M001" "B003" 999 0 =
      (initialize_db emptyDB, false, SaleMsg.insufficientStock 20) ∧
    (toString (20 : Int)).toList <:+:
      (renderMsg (SaleMsg.insufficientStock 20)).toList :=
  createSale_insufficient_stock_error (initialize_db emptyDB) "2024-02-01" "M001" "B003" 999 0
    { bid := "B003", btitle := "Machine Learning Guide", bprice := 1200, bstock := 20 }
    (by decide) (by decide) (by decide) (by decide) (by decide)

/-- The discount-update map of `update_sale` does not change which sale a
`find?` by id locates. -/
theorem sale_update_pred_preserved (sid : Nat) (d t0 : Int) (t : Sale) :
    ((if t.sid == sid then { t with sdiscount := d, stotal := t0 } else t).sid == sid) =
      (t.sid == sid) := by
  by_cases h : (t.sid == sid) = true
  · rw [if_pos h]
  · rw [if_neg h]

/-- C4: updating an existing sale's discount to a non-negative value succeeds,
stores on that sale exactly the new discount and the recomputed total
`max(book's current price * original quantity - new discount, 0)`, and leaves
the sale's quantity, member, book and date, every other sale, the whole book
table (stocks included), the member table and the id sequence unchanged. -/
theorem updateSaleDiscount_recompute_and_frame (db : DB) (sid : Nat) (d : Int)
    (s : Sale) (bk : Book)
    (hd : 0 ≤ d)
    (hs : db.sale.find? (fun t => t.sid == sid) = some s)
    (hb : db.book.find? (fun b => b.bid == s.bid) = some bk) :
    (update_sale db sid d).2 = true ∧
    (update_sale db sid d).1.book = db.book ∧
    (update_sale db sid d).1.member = db.member ∧
    (update_sale db sid d).1.nextSid = db.nextSid ∧
    (update_sale db sid d).1.sale.find? (fun t => t.sid == sid) =
      some { s with sdiscount := d, stotal := max (bk.bprice * s.sqty - d) 0 } ∧
    ∀ t ∈ db.sale, (t.sid == sid) = false → t ∈ (update_sale db sid d).1.sale := by
  have heq : update_sale db sid d =
      ({ db with sale := db.sale.map (fun t =>
          if t.sid == sid then
            { t with sdiscount := d, stotal := max (bk.bprice * s.sqty - d) 0 }
          else t) },
       true) := by
    simp only [update_sale, if_neg (not_lt.mpr hd), hs, hb]
  rw [heq]
  refine ⟨rfl, rfl, rfl, rfl, ?_, ?_⟩
  · have hmap := find?_map_of_pred_preserved (fun t : Sale => t.sid == sid)
      (fun t => if t.sid == sid then
        { t with sdiscount := d, stotal := max (bk.bprice * s.sqty - d) 0 } else t)
      (sale_update_pred_preserved sid d (max (bk.bprice * s.sqty - d) 0)) db.sale
    simp only [hmap, hs, Option.map_some', if_pos (List.find?_some hs)]
  · intro t ht hne
    refine List.mem_map.mpr ⟨t, ht, ?_⟩
    rw [if_neg (by rw [hne]; exact Bool.false_ne_true)]

/-- C4 witness: the spec's example on the seeded store: updating the discount
of sale 1 (B001, quantity 2) to 50 stores total `max(600 * 2 - 50, 0) = 1150`,
keeps its quantity, member, book and date, and leaves books, members and the
id sequence unchanged. -/
theorem updateSaleDiscount_recompute_and_frame_witness :
    (update_sale (initialize_db emptyDB) 1 50).2 = true ∧
    (update_sale (initialize_db emptyDB) 1 50).1.book = (initialize_db emptyDB).book ∧
    (update_sale (initialize_db emptyDB) 1 50).1.member = (initialize_db emptyDB).member ∧
    (update_sale (initialize_db emptyDB) 1 50).1.nextSid = (initialize_db emptyDB).nextSid ∧
    (update_sale (initialize_db emptyDB) 1 50).1.sale.find? (fun t => t.sid == 1) =
      some { sid := 1, sdate := "2024-01-15", mid := "M001", bid := "B001",
             sqty := 2, sdiscount := 50, stotal := max (600 * 2 - 50) 0 } ∧
    ∀ t ∈ (initialize_db emptyDB).sale, (t.sid == 1) = false →
      t ∈ (update_sale (initialize_db emptyDB) 1 50).1.sale :=
  updateSaleDiscount_recompute_and_frame (initialize_db emptyDB) 1 50
    { sid := 1, sdate := "2024-01-15", mid := "M001", bid := "B001",
      sqty := 2, sdiscount := 100, stotal := 1100 }
    { bid := "B001", btitle := "Python Programming", bprice := 600, bstock := 50 }
    (by decide) (by decide) (by decide)

/-- C6: deleting an existing sale (sale ids being unique, as the primary key
guarantees) removes exactly that one row: the books (stocks included) and
members are untouched, the deleted row is gone, the row count drops by one,
every sale with a different id survives unchanged, and no new row appears. -/
theorem deleteSale_removes_exactly_one (db : DB) (s : Sale)
    (hnd : (db.sale.map Sale.sid).Nodup) (hs : s ∈ db.sale) :
    (delete_sale db s.sid).book = db.book ∧
    (delete_sale db s.sid).member = db.member ∧
    s ∉ (delete_sale db s.sid).sale ∧
    (delete_sale db s.sid).sale.length + 1 = db.sale.length ∧
    (∀ t ∈ db.sale, t.sid ≠ s.sid → t ∈ (delete_sale db s.sid).sale) ∧
    ∀ t ∈ (delete_sale db s.sid).sale, t ∈ db.sale := by
  have hfun : (fun t : Sale => t.sid != s.sid) =
      (fun t : Sale => decide (t.sid ≠ s.sid)) := by
    funext t
    by_cases h : t.sid = s.sid <;> simp [h]
  have hsale : (delete_sale db s.sid).sale =
      db.sale.filter (fun t => decide (t.sid ≠ s.sid)) := by
    simp only [delete_sale]
    rw [hfun]
  refine ⟨rfl, rfl, ?_, ?_, ?_, ?_⟩
  · rw [hsale]
    intro hmem
    exact (by simp at hmem : s ∈ db.sale ∧ ¬ s.sid = s.sid).2 rfl
  · rw [hsale]
    exact length_filter_key_ne Sale.sid db.sale s hnd hs
  · intro t ht hne
    rw [hsale]
    exact List.mem_filter.mpr ⟨ht, by simpa using hne⟩
  · intro t ht
    rw [hsale] at ht
    exact (List.mem_filter.mp ht).1

/-- C6 witness: deleting seed sale 2 from the seeded store leaves books and
members untouched, removes that row, drops the sale count from 4 to 3, and
keeps the other three rows. -/
theorem deleteSale_removes_exactly_one_witness :
    (delete_sale (initialize_db emptyDB) 2).book = (initialize_db emptyDB).book ∧
    (delete_sale (initialize_db emptyDB) 2).member = (initialize_db emptyDB).member ∧
    ({ sid := 2, sdate := "2024-01-16", mid := "M002", bid := "B002",
       sqty := 1, sdiscount := 50, stotal := 750 } : Sale) ∉
      (delete_sale (initialize_db emptyDB) 2).sale ∧
    (delete_sale (initialize_db emptyDB) 2).sale.length + 1 =
      (initialize_db emptyDB).sale.length ∧
    (∀ t ∈ (initialize_db emptyDB).sale,
      t.sid ≠ ({ sid := 2, sdate := "2024-01-16", mid := "M002", bid := "B002",
                 sqty := 1, sdiscount := 50, stotal := 750 } : Sale).sid →
      t ∈ (delete_sale (initialize_db emptyDB) 2).sale) ∧
    ∀ t ∈ (delete_sale (initialize_db emptyDB) 2).sale, t ∈ (initialize_db emptyDB).sale :=
  deleteSale_removes_exactly_one (initialize_db emptyDB)
    { sid := 2, sdate := "2024-01-16", mid := "M002", bid := "B002",
      sqty := 1, sdiscount := 50, stotal := 750 }
    (by decide) (by decide)

/-- Case analysis of `add_sale`: either a validation check fails and the store
is returned untouched with a failure flag, or every check passed and the store
received exactly the new sale row and the stock decrement. -/
theorem add_sale_cases (db : DB) (sdate mid bid : String) (sqty sdiscount : Int) :
    ((add_sale db sdate mid bid sqty sdiscount).1 = db ∧
     (add_sale db sdate mid bid sqty sdiscount).2.1 = false) ∨
    ∃ bk : Book, db.book.find? (fun b => b.bid == bid) = some bk ∧
      0 < sqty ∧ sqty ≤ bk.bstock ∧
      (add_sale db sdate mid bid sqty sdiscount).2.1 = true ∧
      (add_sale db sdate mid bid sqty sdiscount).1 =
        { db with
            sale := db.sale ++
              [{ sid := db.nextSid, sdate := sdate, mid := mid, bid := bid,
                 sqty := sqty, sdiscount := sdiscount,
                 stotal := max (bk.bprice * sqty - sdiscount) 0 }],
            book := db.book.map (fun b =>
              if b.bid == bid then { b with bstock := b.bstock - sqty } else b),
            nextSid := db.nextSid + 1 } := by
  by_cases hdate : dateShapeOk sdate
  · by_cases hqty : qtyDiscountOk sqty sdiscount
    · cases hmem : db.member.find? (fun m => m.mid == mid) with
      | none =>
        rw [add_sale_member_fail db sdate mid bid sqty sdiscount hdate hqty hmem]
        exact Or.inl ⟨rfl, rfl⟩
      | some m =>
        have hmem' : (db.member.find? (fun m => m.mid == mid)).isSome :=
          Option.isSome_iff_exists.mpr ⟨m, hmem⟩
        cases hbook : db.book.find? (fun b => b.bid == bid) with
        | none =>
          rw [add_sale_book_fail db sdate mid bid sqty sdiscount hdate hqty hmem' hbook]
          exact Or.inl ⟨rfl, rfl⟩
        | some bk =>
          by_cases hstock : sqty ≤ bk.bstock
          · rw [add_sale_success db sdate mid bid sqty sdiscount bk hdate hqty hmem' hbook hstock]
            exact Or.inr ⟨bk, hbook ▸ rfl, hqty.1, hstock, rfl, rfl⟩
          · rw [add_sale_stock_fail db sdate mid bid sqty sdiscount bk hdate hqty hmem' hbook
              (not_le.mp hstock)]
            exact Or.inl ⟨rfl, rfl⟩
    · rw [add_sale_qty_fail db sdate mid bid sqty sdiscount hdate hqty]
      exact Or.inl ⟨rfl, rfl⟩
  · rw [add_sale_date_fail db sdate mid bid sqty sdiscount hdate]
    exact Or.inl ⟨rfl, rfl⟩

/-- `update_sale` never touches books, members or the id sequence, and never
changes the multiset of sale ids. -/
theorem update_sale_frame (db : DB) (sid : Nat) (d : Int) :
    (update_sale db sid d).1.book = db.book ∧
    (update_sale db sid d).1.member = db.member ∧
    (update_sale db sid d).1.nextSid = db.nextSid ∧
    (update_sale db sid d).1.sale.map Sale.sid = db.sale.map Sale.sid := by
  unfold update_sale
  repeat' split
  all_goals refine ⟨rfl, rfl, rfl, ?_⟩
  any_goals rfl
  rw [List.map_map]
  refine List.map_congr_left (fun t _ => ?_)
  by_cases h : (t.sid == sid) = true
  · simp only [Function.comp_apply, if_pos h]
  · simp only [Function.comp_apply, if_neg h]

/-- `delete_sale` never touches books, members or the id sequence and only
ever removes sale rows. -/
theorem delete_sale_frame (db : DB) (sid : Nat) :
    (delete_sale db sid).book = db.book ∧
    (delete_sale db sid).member = db.member ∧
    (delete_sale db sid).nextSid = db.nextSid ∧
    ∀ t ∈ (delete_sale db sid).sale, t ∈ db.sale :=
  ⟨rfl, rfl, rfl, fun _ ht => List.mem_filter.mp ht |>.1⟩

/-- The book-table invariant: pairwise-distinct book ids (the `bid` primary
key) and non-negative stocks. -/
abbrev goodBooks (db : DB) : Prop :=
  (db.book.map Book.bid).Nodup ∧ ∀ b ∈ db.book, 0 ≤ b.bstock

/-- Every engine operation preserves the book-table invariant; for a
successful sale the guard `quantity ≤ stock` keeps the decremented stock
non-negative. -/
theorem applyOp_goodBooks (db : DB) (op : Op) (h : goodBooks db) :
    goodBooks (applyOp db op) := by
  cases op with
  | createSale sdate mid bid sqty sdiscount =>
    show goodBooks (add_sale db sdate mid bid sqty sdiscount).1
    rcases add_sale_cases db sdate mid bid sqty sdiscount with ⟨h1, _⟩ | ⟨bk, hbook, _, hle, _, h1⟩
    · rw [h1]
      exact h
    · rw [h1]
      constructor
      · have : (db.book.map (fun b =>
            if b.bid == bid then { b with bstock := b.bstock - sqty } else b)).map Book.bid =
            db.book.map Book.bid := by
          rw [List.map_map]
          refine List.map_congr_left (fun b _ => ?_)
          by_cases hb : (b.bid == bid) = true
          · simp only [Function.comp_apply, if_pos hb]
          · simp only [Function.comp_apply, if_neg hb]
        exact this ▸ h.1
      · intro b hb
        rcases List.mem_map.mp hb with ⟨b0, hb0, rfl⟩
        by_cases hb0bid : (b0.bid == bid) = true
        · rw [if_pos hb0bid]
          have hbkmem : bk ∈ db.book := List.mem_of_find?_eq_some hbook
          have hbkbid := List.find?_some hbook
          have hb0bk : b0 = bk := by
            refine List.inj_on_of_nodup_map h.1 hb0 hbkmem ?_
            have e1 : b0.bid = bid := by simpa using hb0bid
            have e2 : bk.bid = bid := by simpa using hbkbid
            rw [e1, e2]
          subst hb0bk
          simp only
          omega
        · rw [if_neg hb0bid]
          exact h.2 b0 hb0
  | updateDiscount sid d =>
    show goodBooks (update_sale db sid d).1
    rw [goodBooks, (update_sale_frame db sid d).1]
    exact h
  | deleteSale sid =>
    show goodBooks (delete_sale db sid)
    rw [goodBooks, (delete_sale_frame db sid).1]
    exact h

/-- Running any operation sequence preserves the book-table invariant. -/
theorem runOps_goodBooks (ops : List Op) :
    ∀ db : DB, goodBooks db → goodBooks (runOps db ops) := by
  induction ops with
  | nil => exact fun db h => h
  | cons op ops ih => exact fun db h => ih (applyOp db op) (applyOp_goodBooks db op h)

/-- C5: in every store reachable from the seeded initial store by the engine's
operations (create sale, update discount, delete sale), every book's stock is
non-negative: no successful `CreateSale` ever drives a stock below zero. -/
theorem book_stock_nonneg_reachable (ops : List Op) :
    ∀ b ∈ (runOps (initialize_db emptyDB) ops).book, 0 ≤ b.bstock :=
  (runOps_goodBooks ops (initialize_db emptyDB) ⟨by decide, by decide⟩).2

/-- C5 witness: in the seeded initial store itself (the empty operation
sequence), book B001 has non-negative stock. -/
theorem book_stock_nonneg_reachable_witness :
    0 ≤ ({ bid := "B001", btitle := "Python Programming", bprice := 600, bstock := 50 } : Book).bstock :=
  book_stock_nonneg_reachable []
    { bid := "B001", btitle := "Python Programming", bprice := 600, bstock := 50 }
    (by decide)

/-- Every engine operation leaves the AUTOINCREMENT sequence value unchanged
or increases it. -/
theorem applyOp_nextSid_mono (db : DB) (op : Op) :
    db.nextSid ≤ (applyOp db op).nextSid := by
  cases op with
  | createSale sdate mid bid sqty sdiscount =>
    show db.nextSid ≤ (add_sale db sdate mid bid sqty sdiscount).1.nextSid
    rcases add_sale_cases db sdate mid bid sqty sdiscount with ⟨h1, _⟩ | ⟨bk, _, _, _, _, h1⟩
    · rw [h1]
    · rw [h1]
      exact Nat.le_succ db.nextSid
  | updateDiscount sid d =>
    exact le_of_eq ((update_sale_frame db sid d).2.2.1).symm
  | deleteSale sid =>
    exact le_of_eq ((delete_sale_frame db sid).2.2.1).symm

/-- An id issued by one operation is exactly the AUTOINCREMENT value before
the operation, and the operation then bumps the sequence. -/
theorem mem_newSaleIds (db : DB) (op : Op) (id : Nat) (h : id ∈ newSaleIds db op) :
    id = db.nextSid ∧ (applyOp db op).nextSid = db.nextSid + 1 := by
  cases op with
  | createSale sdate mid bid sqty sdiscount =>
    rcases add_sale_cases db sdate mid bid sqty sdiscount with ⟨_, hflag⟩ | ⟨bk, _, _, _, hflag, h1⟩
    · rw [newSaleIds, if_neg (by rw [hflag]; exact Bool.false_ne_true)] at h
      cases h
    · rw [newSaleIds, if_pos hflag] at h
      refine ⟨List.mem_singleton.mp h, ?_⟩
      show (add_sale db sdate mid bid sqty sdiscount).1.nextSid = db.nextSid + 1
      rw [h1]
  | updateDiscount sid d => cases h
  | deleteSale sid => cases h

/-- Every id issued along a run is at least the AUTOINCREMENT value at the
start of the run. -/
theorem issuedIds_lb (ops : List Op) :
    ∀ db : DB, ∀ id ∈ issuedIds db ops, db.nextSid ≤ id := by
  induction ops with
  | nil =>
    intro db id h
    cases h
  | cons op ops ih =>
    intro db id h
    rcases List.mem_append.mp h with h | h
    · exact le_of_eq (mem_newSaleIds db op id h).1.symm
    · exact le_trans (applyOp_nextSid_mono db op) (ih (applyOp db op) id h)

/-- The ids issued along any run are strictly increasing in order of
issuance. -/
theorem issuedIds_pairwise (ops : List Op) :
    ∀ db : DB, List.Pairwise (· < ·) (issuedIds db ops) := by
  induction ops with
  | nil =>
    intro db
    exact List.Pairwise.nil
  | cons op ops ih =>
    intro db
    rw [issuedIds]
    refine List.pairwise_append.mpr ⟨?_, ih (applyOp db op), ?_⟩
    · cases op with
      | createSale sdate mid bid sqty sdiscount =>
        rw [newSaleIds]
        split
        · exact List.pairwise_singleton _ _
        · exact List.Pairwise.nil
      | updateDiscount sid d => exact List.Pairwise.nil
      | deleteSale sid => exact List.Pairwise.nil
    · intro a ha b hb
      obtain ⟨ha1, ha2⟩ := mem_newSaleIds db op a ha
      have hb1 := issuedIds_lb ops (applyOp db op) b hb
      omega

/-- Each operation only ever adds the id it issues: every sale id present
after an operation was present before it or is the issued one. -/
theorem applyOp_sale_sids (db : DB) (op : Op) :
    ∀ s ∈ (applyOp db op).sale, s.sid ∈ db.sale.map Sale.sid ∨ s.sid ∈ newSaleIds db op := by
  cases op with
  | createSale sdate mid bid sqty sdiscount =>
    intro s hs
    rcases add_sale_cases db sdate mid bid sqty sdiscount with ⟨h1, _⟩ | ⟨bk, _, _, _, hflag, h1⟩
    · rw [show (applyOp db (Op.createSale sdate mid bid sqty sdiscount)).sale =
          (add_sale db sdate mid bid sqty sdiscount).1.sale from rfl, h1] at hs
      exact Or.inl (List.mem_map_of_mem Sale.sid hs)
    · rw [show (applyOp db (Op.createSale sdate mid bid sqty sdiscount)).sale =
          (add_sale db sdate mid bid sqty sdiscount).1.sale from rfl, h1] at hs
      rcases List.mem_append.mp hs with h | h
      · exact Or.inl (List.mem_map_of_mem Sale.sid h)
      · right
        rw [newSaleIds, if_pos hflag, List.mem_singleton.mp h]
        exact List.mem_singleton.mpr rfl
  | updateDiscount sid d =>
    intro s hs
    left
    rw [← (update_sale_frame db sid d).2.2.2]
    exact List.mem_map_of_mem Sale.sid hs
  | deleteSale sid =>
    intro s hs
    exact Or.inl (List.mem_map_of_mem Sale.sid ((delete_sale_frame db sid).2.2.2 s hs))

/-- Every sale id present at the end of a run was present at the start or was
issued during the run. -/
theorem runOps_sale_sids (ops : List Op) :
    ∀ db : DB, ∀ s ∈ (runOps db ops).sale,
      s.sid ∈ db.sale.map Sale.sid ∨ s.sid ∈ issuedIds db ops := by
  induction ops with
  | nil =>
    intro db s hs
    exact Or.inl (List.mem_map_of_mem Sale.sid hs)
  | cons op ops ih =>
    intro db s hs
    rcases ih (applyOp db op) s hs with h | h
    · rcases List.mem_map.mp h with ⟨t, ht, hts⟩
      rcases applyOp_sale_sids db op t ht with h' | h'
      · exact Or.inl (hts ▸ h')
      · exact Or.inr (List.mem_append.mpr (Or.inl (hts ▸ h')))
    · exact Or.inr (List.mem_append.mpr (Or.inr h))

/-- C7: sale ids are never reused.  Along any run of create/update/delete
operations, the issued ids are strictly increasing in order of issuance (so a
sale created after any deletion still gets a fresh, larger id); every issued
id is at least the starting sequence value, and so exceeds the id of every
sale already in the store when the starting sequence dominates them; and every
sale id ever present is a starting id or an issued one. -/
theorem sale_ids_never_reused (db : DB) (ops : List Op) :
    List.Pairwise (· < ·) (issuedIds db ops) ∧
    (∀ id ∈ issuedIds db ops, db.nextSid ≤ id) ∧
    ((∀ s ∈ db.sale, s.sid < db.nextSid) →
      ∀ s ∈ db.sale, ∀ id ∈ issuedIds db ops, s.sid < id) ∧
    ∀ s ∈ (runOps db ops).sale, s.sid ∈ db.sale.map Sale.sid ∨ s.sid ∈ issuedIds db ops :=
  ⟨issuedIds_pairwise ops db,
   issuedIds_lb ops db,
   fun hlt s hs id hid => lt_of_lt_of_le (hlt s hs) (issuedIds_lb ops db id hid),
   runOps_sale_sids ops db⟩

/-- A fixed run used to witness the id-freshness theorem: create a sale, then
delete it, then create another. -/
def demoOps : List Op :=
  [ Op.createSale "2024-02-01" "M001" "B001" 2 100,
    Op.deleteSale 5,
    Op.createSale "2024-02-02" "M002" "B001" 1 0 ]

/-- C7 witness: on the seeded store (ids 1-4 used, sequence at 5) and the run
create-delete-create, the issued ids strictly increase and exceed every seeded
sale id. -/
theorem sale_ids_never_reused_witness :
    List.Pairwise (· < ·) (issuedIds (initialize_db emptyDB) demoOps) ∧
    ∀ s ∈ (initialize_db emptyDB).sale,
      ∀ id ∈ issuedIds (initialize_db emptyDB) demoOps, s.sid < id :=
  ⟨(sale_ids_never_reused (initialize_db emptyDB) demoOps).1,
   (sale_ids_never_reused (initialize_db emptyDB) demoOps).2.2.1 (by decide)⟩

/-- C8: the store initializer is idempotent: a second run creates no tables
anew and inserts no rows, so the whole store - in particular the member, book
and sale row counts - is unchanged by the second run.  (Proved for every
store, hence in particular for the result of one run on the empty store.) -/
theorem initialize_db_idempotent (db : DB) :
    initialize_db (initialize_db db) = initialize_db db ∧
    (initialize_db (initialize_db db)).member.length = (initialize_db db).member.length ∧
    (initialize_db (initialize_db db)).book.length = (initialize_db db).book.length ∧
    (initialize_db (initialize_db db)).sale.length = (initialize_db db).sale.length := by
  have h : initialize_db (initialize_db db) = initialize_db db := by
    cases h : db.member with
    | nil => simp [initialize_db, h, seedMembers]
    | cons m ms => simp [initialize_db, h]
  exact ⟨h, by rw [h], by rw [h], by rw [h]⟩

/-- C8 witness: on the store seeded from the empty store, a second initializer
run changes nothing. -/
theorem initialize_db_idempotent_witness :
    initialize_db (initialize_db emptyDB) = initialize_db emptyDB :=
  (initialize_db_idempotent emptyDB).1

/-- C9 counterexample: contrary to the claim, no seed sale row violates the
engine's pricing formula: every one of the four seeded rows stores
`total = max(price * qty - discount, 0)` against the seeded book table
(the cited row stores 3400 = max(1200 * 3 - 200, 0)). -/
theorem seed_total_mismatch_refuted :
    ¬ ∃ s ∈ (initialize_db emptyDB).sale,
        saleTotalConsistent (initialize_db emptyDB).book s = false := by
  decide

/-- C9 (amended): every seed sale row inserted on an empty store has
`total = max(price * qty - discount, 0)` under the engine's own formula; in
particular the row with price 1200, quantity 3, discount 200 stores 3400,
which equals the formula's value. -/
theorem seed_totals_consistent :
    ((initialize_db emptyDB).sale.all fun s =>
      saleTotalConsistent (initialize_db emptyDB).book s) = true ∧
    (initialize_db emptyDB).sale.get? 2 =
      some { sid := 3, sdate := "2024-01-17", mid := "M001", bid := "B003",
             sqty := 3, sdiscount := 200, stotal := 3400 } ∧
    (3400 : Int) = max (1200 * 3 - 200) 0 := by
  refine ⟨by decide, by decide, by decide⟩

/-- C10: seed insertion is gated solely on the member table being empty: the
initializer inserts the demonstration members, books and sales if and only if
the member table has zero rows; with a non-empty member table no table
receives any row, even when book or sale is empty. -/
theorem seed_insert_iff_member_empty (db : DB) :
    (db.member = [] →
       (initialize_db db).member = db.member ++ seedMembers ∧
       (initialize_db db).book = db.book ++ seedBooks ∧
       (initialize_db db).sale = db.sale ++ seedSales db.nextSid) ∧
    (db.member ≠ [] →
       (initialize_db db).member = db.member ∧
       (initialize_db db).book = db.book ∧
       (initialize_db db).sale = db.sale) := by
  constructor
  · intro h
    simp [initialize_db, h]
  · intro h
    rcases hm : db.member with _ | ⟨m, ms⟩
    · exact absurd hm h
    · simp [initialize_db, hm]

/-- C10 witness: on a store whose member table is non-empty while book and
sale are empty, the initializer inserts nothing. -/
theorem seed_insert_iff_member_empty_witness :
    (initialize_db demoDB).member = demoDB.member ∧
    (initialize_db demoDB).book = demoDB.book ∧
    (initialize_db demoDB).sale = demoDB.sale :=
  (seed_insert_iff_member_empty demoDB).2 (by decide)

end Bookstore
